import Mathlib

/-
Verification of the address-geocoder repository.

The repository holds two revisions of the same pipeline:
  - the API path: src/utils/orchestrator.py driving src/utils/geocoder.py;
  - the CLI path: src/utils/geocoding_orchestrator.py driving
    src/utils/address_geocoder.py.
Both are embedded below.  Python dicts are embedded as association lists,
Python floats as rationals (only coercion behaviour matters to the claims,
never rounding), and exceptions as Except / Option results.
-/

deriving instance DecidableEq for Except

/-- A Python value as it appears in provider payloads and output rows.
A string that Python float() would parse is represented as pNumStr with its
numeric value; pStr is a string float() rejects. -/
inductive PyAny where
| pNone
| pBool (b : Bool)
| pStr (s : String)
| pNumStr (q : ℚ)
| pNum (q : ℚ)
deriving DecidableEq, Repr

/-- Python float(v): numbers and numeric strings convert, other strings and
None raise. -/
def pyFloat : PyAny → Except String ℚ
| PyAny.pNum q => Except.ok q
| PyAny.pNumStr q => Except.ok q
| PyAny.pBool b => Except.ok (if b then 1 else 0)
| PyAny.pStr s => Except.error ("could not convert string to float: " ++ s)
| PyAny.pNone => Except.error "float() argument must be a string or a real number, not NoneType"

/-- Python dict.get(k, dflt) over an association list. -/
def dictGet (d : List (String × PyAny)) (k : String) (dflt : PyAny) : PyAny :=
  match d.find? (fun kv => kv.1 == k) with
  | some kv => kv.2
  | none => dflt

/-- Attempt label formatting, the Python f-string i/N. -/
def attemptLabel (i n : Nat) : String :=
  toString i ++ "/" ++ toString n

namespace AddressGeocodingConfig

/-- GeocodingSchema.Output member names
(src/config/address_geocoding.py, class Output). -/
def outputColumns : List String :=
  ["street_number", "street_name", "postal_code", "city", "admin_level_1",
   "admin_level_2", "country", "latitude", "longitude", "location_type",
   "address_type"]

/-- GeocodingSchema.Default: output name to Nominatim address-dict key
(src/config/address_geocoding.py, class Default). -/
def defaultSchema : List (String × String) :=
  [("street_number", "house_number"), ("street_name", "road"),
   ("postal_code", "postcode"), ("city", "city"),
   ("admin_level_1", "county"), ("admin_level_2", "state"),
   ("country", "country")]

/-- apply_format (src/config/address_geocoding.py): builds the final mapping
with an empty-string default for every output column, then adds raw_address
and encoder. -/
def apply_format (geocoderName : String) (address : String)
    (kwargs : List (String × PyAny)) : List (String × PyAny) :=
  (outputColumns.map (fun c => (c, dictGet kwargs c (PyAny.pStr "")))) ++
    [("raw_address", PyAny.pStr address), ("encoder", PyAny.pStr geocoderName)]

/-- A Nominatim location.raw payload: the address sub-dict plus the
top-level dict carrying lat, lon, type and addresstype. -/
structure NominatimLocation where
  address : List (String × PyAny)
  raw : List (String × PyAny)

/-- Error wrapper used by _get_nominatim_format_config when anything inside
raises. -/
def nominatimErr (m : String) : String :=
  "Unexpected error occurred retrieving Nominatim format configuration : " ++ m

/-- _get_nominatim_format_config (src/config/address_geocoding.py lines
161-184): Default columns come from the address sub-dict with an
empty-string default; latitude and longitude are float(raw.get(key, 0)),
so a missing key becomes 0.0 while a non-numeric value raises (wrapped as a
RuntimeError); location_type and address_type are raw.get with None
default. -/
def get_nominatim_format_config (loc : NominatimLocation) :
    Except String (List (String × PyAny)) :=
  match pyFloat (dictGet loc.raw "lat" (PyAny.pNum 0)),
        pyFloat (dictGet loc.raw "lon" (PyAny.pNum 0)) with
  | Except.ok la, Except.ok lo =>
    Except.ok
      ((defaultSchema.map (fun kv => (kv.1, dictGet loc.address kv.2 (PyAny.pStr "")))) ++
        [("latitude", PyAny.pNum la), ("longitude", PyAny.pNum lo),
         ("location_type", dictGet loc.raw "type" PyAny.pNone),
         ("address_type", dictGet loc.raw "addresstype" PyAny.pNone)])
  | Except.error m, _ => Except.error (nominatimErr m)
  | _, Except.error m => Except.error (nominatimErr m)

end AddressGeocodingConfig

namespace Helpers

/-- One cell of pandas to_numeric with errors coerce followed by
fillna 0 (src/utils/helpers.py convert_to_numeric): numeric data keeps its
value, booleans become 0/1, anything unparseable becomes NaN and then 0. -/
def to_numeric_cell : PyAny → ℚ
| PyAny.pNum q => q
| PyAny.pNumStr q => q
| PyAny.pBool b => if b then 1 else 0
| PyAny.pStr _ => 0
| PyAny.pNone => 0

/-- convert_to_numeric restricted to one row: every cell whose column is in
numeric_columns is replaced by its coerced numeric value; other cells are
untouched.  The function is total: it never raises. -/
def convert_to_numeric_row (numeric_columns : List String)
    (row : List (String × PyAny)) : List (String × PyAny) :=
  row.map (fun kv =>
    if kv.1 ∈ numeric_columns then (kv.1, PyAny.pNum (to_numeric_cell kv.2)) else kv)

end Helpers

namespace GeocoderPy

/-- Behaviour of one provider call in geocoder.py, as observed by the chain
loop: the provider returned a location (whose formatting by _format_result
either yields a mapping or raises), returned nothing, or raised an
exception (any exception: geocoder.py catches Exception uniformly). -/
inductive ProvOutcome where
| found (fmt : Except String (List (String × PyAny)))
| notFound
| raised (msg : String)
deriving DecidableEq

/-- One provider of the fixed chain (GeocodingService member) together with
its behaviour for the address under consideration. -/
structure Provider where
  name : String
  outcome : ProvOutcome
deriving DecidableEq

/-- AddressGeocodingResult (src/utils/geocoder.py lines 21-31). -/
structure AddressGeocodingResult where
  attempt : String
  status : String
  error : Option String
  location : Option (List (String × PyAny))
  geocoder : Option String
deriving DecidableEq

/-- The loop body of geocode_address (src/utils/geocoder.py lines 64-107):
i is the 1-based position, err the last caught exception message.  A match
whose formatting succeeds returns immediately; no-match continues; a raised
exception (or a formatting exception, both land in the same except clause)
records its message and continues; an exhausted loop returns the failed
record carrying the last recorded message. -/
def geocodeChainAux (n : Nat) : Nat → Option String → List Provider → AddressGeocodingResult
| _, err, [] =>
  { attempt := attemptLabel n n, status := "failed", error := err,
    location := none, geocoder := none }
| i, err, p :: rest =>
  match p.outcome with
  | ProvOutcome.notFound => geocodeChainAux n (i + 1) err rest
  | ProvOutcome.raised m => geocodeChainAux n (i + 1) (some m) rest
  | ProvOutcome.found (Except.error m) => geocodeChainAux n (i + 1) (some m) rest
  | ProvOutcome.found (Except.ok f) =>
    { attempt := attemptLabel i n, status := "success", error := none,
      location := some f, geocoder := some p.name }

/-- geocode_address (src/utils/geocoder.py): tries the providers in order,
with max_attempts the number of providers. -/
def geocode_address (ps : List Provider) : AddressGeocodingResult :=
  geocodeChainAux ps.length 1 none ps

/-- The most recent exception message recorded along a provider list
(err is the message recorded before the list is entered): raised providers
and match-with-failing-format providers overwrite it, the rest keep it. -/
def lastErrFrom (err : Option String) : List Provider → Option String
| [] => err
| p :: rest =>
  match p.outcome with
  | ProvOutcome.raised m => lastErrFrom (some m) rest
  | ProvOutcome.found (Except.error m) => lastErrFrom (some m) rest
  | _ => lastErrFrom err rest

end GeocoderPy

namespace AddressGeocoderPy

/-- Behaviour of one provider call in address_geocoder.py.  Unlike
geocoder.py this revision distinguishes GeocoderAuthenticationFailure,
GeocoderTimedOut and other exceptions; a found location whose formatting
raises lands in the generic except clause. -/
inductive ProvOutcome2 where
| found (fmt : Except String (List (String × PyAny)))
| notFound
| authFail (msg : String)
| timedOut (msg : String)
| otherRaised (msg : String)
deriving DecidableEq

/-- The loop body of geocode_address (src/utils/address_geocoder.py lines
36-88).  attempt starts at 1; on a no-match it is incremented twice (once
in the else branch, once at the end of the loop body).  Any exception
returns immediately with a message and no location; a successful match
returns with no error; an exhausted loop returns None. -/
def geocodeChain2Aux (n : Nat) :
    Nat → List ProvOutcome2 → Option (String × Option String × Option (List (String × PyAny)))
| _, [] => none
| attempt, p :: rest =>
  match p with
  | ProvOutcome2.found (Except.ok f) => some (attemptLabel attempt n, none, some f)
  | ProvOutcome2.found (Except.error m) =>
    some (attemptLabel attempt n, some ("Unexpected error occured : " ++ m), none)
  | ProvOutcome2.notFound => geocodeChain2Aux n (attempt + 2) rest
  | ProvOutcome2.authFail m =>
    some (attemptLabel attempt n, some ("Authentication failed : " ++ m), none)
  | ProvOutcome2.timedOut m =>
    some (attemptLabel attempt n, some ("Timeout occurred : " ++ m), none)
  | ProvOutcome2.otherRaised m =>
    some (attemptLabel attempt n, some ("Unexpected error occured : " ++ m), none)

/-- geocode_address (src/utils/address_geocoder.py): max_attempts is the
number of geocoders; returns None when every provider reported no match. -/
def geocode_address (ps : List ProvOutcome2) :
    Option (String × Option String × Option (List (String × PyAny))) :=
  geocodeChain2Aux ps.length 1 ps

end AddressGeocoderPy

namespace OrchestratorPy

/-- One element appended to the output buffer by the collection loop: the
dict returned by _perform_geocoding.  empty is the bare Python dict
returned after exhausting max_retry_no attempts; failedRow is the dict of
id plus is_encoded False; successRow is id plus the formatted location
plus is_encoded True. -/
inductive Row where
| empty
| failedRow (rid : String)
| successRow (rid : String) (loc : List (String × PyAny))
deriving DecidableEq

/-- The id a row carries, if any: the empty retry-exhausted marker carries
none. -/
def rowId : Row → Option String
| Row.empty => none
| Row.failedRow rid => some rid
| Row.successRow rid _ => some rid

/-- _geocode_input_row (src/utils/orchestrator.py lines 122-141): runs the
geocoder.py chain; a success result gets its location extended with
is_encoded True, any other result becomes the id row with is_encoded
False.  The none result stands for the call raising (only possible when a
success result carries no location, which geocode_address never
produces). -/
def geocode_input_row (rid : String) (ps : List GeocoderPy.Provider) : Option Row :=
  let r := GeocoderPy.geocode_address ps
  if r.status = "success" then
    match r.location with
    | some loc => some (Row.successRow rid (loc ++ [("is_encoded", PyAny.pBool true)]))
    | none => none
  else some (Row.failedRow rid)

/-- The retry loop of _perform_geocoding (src/utils/orchestrator.py lines
143-161, identical in src/utils/geocoding_orchestrator.py lines 141-159):
attempt i returning some row ends the loop with that row; a raising
attempt (none) sleeps and retries; when max_retry_no attempts have raised
the bare empty dict is returned.  The second component counts the
_geocode_input_row invocations made. -/
def perform_geocoding_go (attempt : Nat → Option Row) : Nat → Nat → Row × Nat
| i, 0 => (Row.empty, i)
| i, fuel + 1 =>
  match attempt i with
  | some r => (r, i + 1)
  | none => perform_geocoding_go attempt (i + 1) fuel

/-- _perform_geocoding: run up to max_retry_no attempts. -/
def perform_geocoding (max_retry_no : Nat) (attempt : Nat → Option Row) : Row × Nat :=
  perform_geocoding_go attempt 0 max_retry_no

/-- The as_completed collection loop of execute_geocoding_workflow
(src/utils/orchestrator.py lines 189-207), one future at a time in
completion order: a raising future propagates (Except.error); a completed
future is appended to the buffer and counted in total_success; when the
buffer reaches chunksize it is flushed as one chunk and cleared.  Returns
the flushed chunks, total_success and the remaining buffer. -/
def workflowLoop (k : Nat) :
    List (Except String Row) → List Row → List (List Row) → Nat →
      Except String (List (List Row) × Nat × List Row)
| [], buf, chunks, succ => Except.ok (chunks, succ, buf)
| Except.error e :: _, _, _, _ => Except.error e
| Except.ok r :: rest, buf, chunks, succ =>
  if k ≤ (buf ++ [r]).length then
    workflowLoop k rest [] (chunks ++ [buf ++ [r]]) (succ + 1)
  else
    workflowLoop k rest (buf ++ [r]) chunks (succ + 1)

/-- All chunks flushed by a run: the full chunks flushed inside the loop
plus the final partial buffer flushed after the loop when non-empty
(src/utils/orchestrator.py lines 209-211).  A run aborted by a raising
future flushes nothing further; its earlier chunks are not reported
here. -/
def flushedChunks (k : Nat) (futures : List (Except String Row)) : List (List Row) :=
  match workflowLoop k futures [] [] 0 with
  | Except.error _ => []
  | Except.ok (chunks, _, buf) => if buf = [] then chunks else chunks ++ [buf]

/-- GeocodingOrchestratorResult (src/utils/orchestrator.py lines 75-89)
restricted to the counters; the source stores every field as a string and
also records elapsed time and the output path, which carry no claim
content.  Ratios are the pre-formatting rational values. -/
structure RunSummary where
  status : String
  total_chunks : Nat
  total_processed : Nat
  success_count : Nat
  success_ratio : ℚ
  error_count : Nat
  error_ratio : ℚ
deriving DecidableEq

/-- execute_geocoding_workflow (src/utils/orchestrator.py lines 163-230):
runs the collection loop, flushes the final partial buffer, and builds the
summary.  total_failed is zero whenever the summary is reached, because
the only code path incrementing it re-raises immediately.  The ratios
divide by total_processed; with zero processed rows Python raises
ZeroDivisionError, modelled as the error result. -/
def execute_geocoding_workflow (k : Nat) (futures : List (Except String Row)) :
    Except String (RunSummary × List (List Row)) :=
  match workflowLoop k futures [] [] 0 with
  | Except.error e => Except.error e
  | Except.ok (chunks0, succ, buf) =>
    let chunks := if buf = [] then chunks0 else chunks0 ++ [buf]
    let failed : Nat := 0
    let total := succ + failed
    if total = 0 then Except.error "ZeroDivisionError: division by zero"
    else
      Except.ok
        ({ status := "success", total_chunks := chunks.length,
           total_processed := total, success_count := succ,
           success_ratio := ((succ : ℚ) / (total : ℚ)) * 100,
           error_count := failed,
           error_ratio := ((failed : ℚ) / (total : ℚ)) * 100 }, chunks)

end OrchestratorPy

namespace GeocodingOrchestratorPy

/-- _geocode_input_row (src/utils/geocoding_orchestrator.py lines 117-139):
unpacks the tuple returned by address_geocoder.geocode_address.  When that
call returns None (every provider reported no match) the unpacking raises
TypeError, modelled as none; a truthy location yields the success row, a
falsy one the failed row. -/
def geocode_input_row (rid : String) (ps : List AddressGeocoderPy.ProvOutcome2) :
    Option OrchestratorPy.Row :=
  match AddressGeocoderPy.geocode_address ps with
  | none => none
  | some (_, _, some loc) =>
    some (OrchestratorPy.Row.successRow rid (loc ++ [("is_encoded", PyAny.pBool true)]))
  | some (_, _, none) => some (OrchestratorPy.Row.failedRow rid)

end GeocodingOrchestratorPy

namespace RateLimiterModel

/-- The per-instance state of a geopy RateLimiter: the time its last
request went out, if any. -/
structure RateLimiterState where
  lastIssued : Option ℚ

/-- One request through a RateLimiter instance with the given minimum
delay, attempted at time now: the first request of an instance goes out
immediately; a later one waits until minDelay after the instance's
previous request.  Returns the issue time and the updated state. -/
def rateLimiterIssue (st : RateLimiterState) (minDelay now : ℚ) : ℚ × RateLimiterState :=
  match st.lastIssued with
  | none => (now, { lastIssued := some now })
  | some t =>
    let issue := max now (t + minDelay)
    (issue, { lastIssued := some issue })

/-- The issue time of a provider request in geocode_address
(src/utils/geocoder.py lines 67-71 and src/utils/address_geocoder.py lines
39-43): the RateLimiter is constructed freshly inside the provider loop on
every resolution, so the state passed to the request is always the initial
one and the request goes out at once. -/
def code_request_time (minDelay now : ℚ) : ℚ :=
  (rateLimiterIssue { lastIssued := none } minDelay now).1

end RateLimiterModel

/-- The exactly-one invariant claimed for outcomes: either the fields
mapping is present, or an error is present with fields absent and status
Unresolved, and not both. -/
def c6ExactlyOne (r : GeocoderPy.AddressGeocodingResult) : Prop :=
  (r.location.isSome ∧ ¬(r.error.isSome ∧ r.location = none ∧ r.status = "failed"))
  ∨ ((r.error.isSome ∧ r.location = none ∧ r.status = "failed") ∧ ¬r.location.isSome)

namespace GeocoderPy

/-- Passing a block of providers none of which yields a successfully
formatted match leaves the chain running, with the position advanced and
the recorded error updated to the most recent exception message. -/
theorem geocodeChainAux_skip (n : Nat) (ps : List Provider) :
    ∀ (i : Nat) (err : Option String) (rest : List Provider),
      (∀ p ∈ ps, ∀ f, p.outcome ≠ ProvOutcome.found (Except.ok f)) →
      geocodeChainAux n i err (ps ++ rest)
        = geocodeChainAux n (i + ps.length) (lastErrFrom err ps) rest := by
  induction ps with
  | nil => intro i err rest _; simp [lastErrFrom]
  | cons p ps ih =>
    intro i err rest h
    have hp := h p (List.mem_cons_self p ps)
    have hps : ∀ q ∈ ps, ∀ f, q.outcome ≠ ProvOutcome.found (Except.ok f) :=
      fun q hq => h q (List.mem_cons_of_mem p hq)
    have harith : i + 1 + ps.length = i + (p :: ps).length := by
      simp [List.length_cons]; omega
    obtain ⟨pname, pout⟩ := p
    cases pout with
    | notFound =>
      simp only [List.cons_append, geocodeChainAux, lastErrFrom, List.append_eq]
      rw [ih (i + 1) err rest hps, harith]
    | raised m =>
      simp only [List.cons_append, geocodeChainAux, lastErrFrom, List.append_eq]
      rw [ih (i + 1) (some m) rest hps, harith]
    | found fmt =>
      cases fmt with
      | ok f => exact absurd rfl (hp f)
      | error m =>
        simp only [List.cons_append, geocodeChainAux, lastErrFrom, List.append_eq]
        rw [ih (i + 1) (some m) rest hps, harith]

/-- A run of the chain over providers that all report no match keeps the
recorded error untouched and falls through to the failed record. -/
theorem geocodeChainAux_notFound (n : Nat) (ps : List Provider) :
    ∀ (i : Nat) (err : Option String),
      (∀ p ∈ ps, p.outcome = ProvOutcome.notFound) →
      geocodeChainAux n i err ps
        = { attempt := attemptLabel n n, status := "failed", error := err,
            location := none, geocoder := none } := by
  induction ps with
  | nil => intro i err _; rfl
  | cons p ps ih =>
    intro i err h
    have hp := h p (List.mem_cons_self p ps)
    have hps : ∀ q ∈ ps, q.outcome = ProvOutcome.notFound :=
      fun q hq => h q (List.mem_cons_of_mem p hq)
    obtain ⟨pname, pout⟩ := p
    simp only at hp
    subst hp
    simp only [geocodeChainAux]
    exact ih (i + 1) err hps

/-- Every result of the chain loop is either a success record carrying a
location and no error, or a failed record carrying no location. -/
theorem geocodeChainAux_inv (n : Nat) (ps : List Provider) :
    ∀ (i : Nat) (err : Option String),
      ((geocodeChainAux n i err ps).status = "success"
          → (geocodeChainAux n i err ps).error = none
            ∧ (geocodeChainAux n i err ps).location.isSome)
      ∧ ((geocodeChainAux n i err ps).status = "failed"
          → (geocodeChainAux n i err ps).location = none)
      ∧ ((geocodeChainAux n i err ps).status = "success"
          ∨ (geocodeChainAux n i err ps).status = "failed") := by
  induction ps with
  | nil =>
    intro i err
    refine ⟨?_, ?_, ?_⟩
    · intro h; exact absurd h (by simp [geocodeChainAux])
    · intro _; simp [geocodeChainAux]
    · right; simp [geocodeChainAux]
  | cons p ps ih =>
    intro i err
    obtain ⟨pname, pout⟩ := p
    cases pout with
    | notFound => simpa only [geocodeChainAux] using ih (i + 1) err
    | raised m => simpa only [geocodeChainAux] using ih (i + 1) (some m)
    | found fmt =>
      cases fmt with
      | ok f =>
        refine ⟨?_, ?_, ?_⟩
        · intro _; simp [geocodeChainAux]
        · intro h; exact absurd h (by simp [geocodeChainAux])
        · left; simp [geocodeChainAux]
      | error m => simpa only [geocodeChainAux] using ih (i + 1) (some m)

end GeocoderPy

namespace AddressGeocoderPy

/-- A block of no-match providers advances the attempt counter by two per
provider (the double increment in the source loop) and leaves the chain
running. -/
theorem geocodeChain2Aux_skipNotFound (n : Nat) (pre : List ProvOutcome2) :
    ∀ (a : Nat) (rest : List ProvOutcome2),
      (∀ q ∈ pre, q = ProvOutcome2.notFound) →
      geocodeChain2Aux n a (pre ++ rest) = geocodeChain2Aux n (a + 2 * pre.length) rest := by
  induction pre with
  | nil => intro a rest _; simp
  | cons p pre ih =>
    intro a rest h
    have hp : p = ProvOutcome2.notFound := h p (List.mem_cons_self p pre)
    have hpre : ∀ q ∈ pre, q = ProvOutcome2.notFound :=
      fun q hq => h q (List.mem_cons_of_mem p hq)
    subst hp
    simp only [List.cons_append, geocodeChain2Aux, List.append_eq]
    rw [ih (a + 2) rest hpre]
    have harith : a + 2 + 2 * pre.length = a + 2 * (ProvOutcome2.notFound :: pre).length := by
      simp [List.length_cons]; omega
    rw [harith]

end AddressGeocoderPy

namespace OrchestratorPy

/-- Invariant of the collection loop over futures that all complete: the
flushed full chunks concatenated with the remaining buffer are exactly the
completion-order rows, full chunks number floor of division, and the
remaining buffer is the remainder. -/
theorem workflowLoop_ok_spec (k : Nat) (hk : 0 < k) (rows : List Row) :
    ∀ (buf : List Row) (chunks : List (List Row)) (succ : Nat),
      buf.length < k →
      ∃ C B,
        workflowLoop k (rows.map Except.ok) buf chunks succ
            = Except.ok (chunks ++ C, succ + rows.length, B)
        ∧ C.flatten ++ B = buf ++ rows
        ∧ C.length = (buf.length + rows.length) / k
        ∧ B.length = (buf.length + rows.length) % k := by
  induction rows with
  | nil =>
    intro buf chunks succ hb
    refine ⟨[], buf, ?_, by simp, ?_, ?_⟩
    · simp [workflowLoop]
    · simp [Nat.div_eq_of_lt hb]
    · simp [Nat.mod_eq_of_lt hb]
  | cons r rows ih =>
    intro buf chunks succ hb
    by_cases hflush : k ≤ (buf ++ [r]).length
    · have hlen : buf.length + 1 = k := by
        simp only [List.length_append, List.length_cons, List.length_nil] at hflush
        omega
      obtain ⟨C, B, h1, h2, h3, h4⟩ := ih [] (chunks ++ [buf ++ [r]]) (succ + 1) hk
      refine ⟨(buf ++ [r]) :: C, B, ?_, ?_, ?_, ?_⟩
      · simp only [List.map_cons, workflowLoop, if_pos hflush]
        rw [h1]
        congr 1
        refine congrArg₂ _ ?_ (congrArg₂ _ ?_ rfl)
        · simp
        · simp [List.length_cons]; omega
      · simp only [List.nil_append] at h2
        simp only [List.flatten_cons, List.append_assoc, h2]
        simp
      · simp only [List.length_cons, h3]
        simp only [List.length_nil, Nat.zero_add]
        have h6 : buf.length + (rows.length + 1) = rows.length + k := by omega
        rw [h6, Nat.add_div_right _ hk]
      · simp only [h4, List.length_nil, Nat.zero_add, List.length_cons]
        have h6 : buf.length + (rows.length + 1) = k + rows.length := by omega
        rw [h6, Nat.add_mod_left]
    · have hlt : (buf ++ [r]).length < k := by omega
      obtain ⟨C, B, h1, h2, h3, h4⟩ := ih (buf ++ [r]) chunks (succ + 1) hlt
      refine ⟨C, B, ?_, ?_, ?_, ?_⟩
      · simp only [List.map_cons, workflowLoop, if_neg hflush]
        rw [h1]
        congr 1
        refine congrArg₂ _ rfl (congrArg₂ _ ?_ rfl)
        simp [List.length_cons]; omega
      · rw [h2]; simp
      · rw [h3]; congr 1; simp [List.length_append, List.length_cons]; omega
      · rw [h4]; congr 1; simp [List.length_append, List.length_cons]; omega

/-- Floor count of full chunks plus one for a non-empty remainder is the
ceiling of m over k. -/
theorem flushed_count (m k : Nat) (hk : 0 < k) :
    m / k + (if m % k = 0 then 0 else 1) = (m + k - 1) / k := by
  obtain ⟨q, r, hr, hm⟩ : ∃ q r, r < k ∧ m = k * q + r :=
    ⟨m / k, m % k, Nat.mod_lt m hk, (Nat.div_add_mod m k).symm⟩
  subst hm
  rw [Nat.mul_add_div hk, Nat.mul_add_mod]
  rw [Nat.div_eq_of_lt hr, Nat.mod_eq_of_lt hr]
  by_cases hr0 : r = 0
  · subst hr0
    have hnum : k * q + 0 + k - 1 = k * q + (k - 1) := by
      generalize k * q = t
      omega
    simp only [if_pos rfl, hnum]
    rw [Nat.mul_add_div hk, Nat.div_eq_of_lt (Nat.sub_lt hk Nat.one_pos)]
    simp
  · have hnum : k * q + r + k - 1 = k * (q + 1) + (r - 1) := by
      have h5 : k * (q + 1) = k * q + k := by ring
      rw [h5]
      generalize k * q = t
      omega
    simp only [if_neg hr0, hnum]
    rw [Nat.mul_add_div hk, Nat.div_eq_of_lt (Nat.lt_of_le_of_lt (Nat.sub_le r 1) hr)]

end OrchestratorPy

/-- C7: evaluation of the code at the failing input.  With the empty input
stream no future is collected, total_processed is 0, and the summary
construction divides by it: execute_geocoding_workflow raises
ZeroDivisionError instead of returning a RunSummary. -/
theorem c7_code_evaluation :
    OrchestratorPy.execute_geocoding_workflow 4 []
      = Except.error "ZeroDivisionError: division by zero" := rfl

/-- C1: evaluation of the code at the failing input.  A single address
whose every chain-level call raises exhausts max_retry_no 3 attempts and
yields the bare empty dict; the collection loop appends it and counts it
in total_success, so the returned summary reports success_count 1 and
error_count 0, while the claim requires the empty marker to be counted as
an error. -/
theorem c1_code_evaluation :
    OrchestratorPy.perform_geocoding 3 (fun _ => none) = (OrchestratorPy.Row.empty, 3)
    ∧ OrchestratorPy.execute_geocoding_workflow 10 [Except.ok OrchestratorPy.Row.empty]
        = Except.ok ({ status := "success", total_chunks := 1, total_processed := 1,
                       success_count := 1, success_ratio := 100,
                       error_count := 0, error_ratio := 0 }, [[OrchestratorPy.Row.empty]]) := by
  refine ⟨rfl, ?_⟩
  simp [OrchestratorPy.execute_geocoding_workflow, OrchestratorPy.workflowLoop]

/-- C2: counterexample.  In the CLI chain (address_geocoder.py) two
providers that both report no match make geocode_address return None, not
an Unresolved outcome with attempt 2/2 and no error as the claim
states. -/
theorem c2_counterexample :
    AddressGeocoderPy.geocode_address
        [AddressGeocoderPy.ProvOutcome2.notFound, AddressGeocoderPy.ProvOutcome2.notFound]
      = none := rfl

/-- C2 (amended): when every provider reports no match and none raises,
the API chain (geocoder.py) returns the failed record with attempt N/N
and no error, exactly as claimed, while the CLI chain
(address_geocoder.py) returns None, which its caller cannot unpack. -/
theorem c2_amended (ps : List GeocoderPy.Provider) (qs : List AddressGeocoderPy.ProvOutcome2)
    (h1 : ∀ p ∈ ps, p.outcome = GeocoderPy.ProvOutcome.notFound)
    (h2 : ∀ q ∈ qs, q = AddressGeocoderPy.ProvOutcome2.notFound) :
    GeocoderPy.geocode_address ps
      = { attempt := attemptLabel ps.length ps.length, status := "failed",
          error := none, location := none, geocoder := none }
    ∧ AddressGeocoderPy.geocode_address qs = none := by
  constructor
  · exact GeocoderPy.geocodeChainAux_notFound ps.length ps 1 none h1
  · unfold AddressGeocoderPy.geocode_address
    have h3 := AddressGeocoderPy.geocodeChain2Aux_skipNotFound qs.length qs 1 [] h2
    rw [List.append_nil] at h3
    rw [h3]
    rfl

/-- C2 (witness): the amended statement at a concrete two-provider
chain. -/
theorem c2_amended_witness :
    GeocoderPy.geocode_address
        [{ name := "Nominatim", outcome := GeocoderPy.ProvOutcome.notFound },
         { name := "Photon", outcome := GeocoderPy.ProvOutcome.notFound }]
      = { attempt := attemptLabel 2 2, status := "failed",
          error := none, location := none, geocoder := none }
    ∧ AddressGeocoderPy.geocode_address
        [AddressGeocoderPy.ProvOutcome2.notFound] = none :=
  c2_amended _ _ (by intro p hp; fin_cases hp <;> rfl)
    (by intro q hq; fin_cases hq; rfl)

/-- C3: counterexample.  In the API chain (geocoder.py) an authentication
failure raised by the first provider is swallowed by the uniform except
clause and the chain continues: the second provider is invoked and
produces a success outcome, contradicting the claim that the chain stops
at the failing position and returns Unresolved. -/
theorem c3_counterexample :
    (GeocoderPy.geocode_address
        [{ name := "Nominatim", outcome := GeocoderPy.ProvOutcome.raised "HTTP 401 Unauthorized" },
         { name := "Photon", outcome := GeocoderPy.ProvOutcome.found (Except.ok []) }]).status
      = "success"
    ∧ (GeocoderPy.geocode_address
        [{ name := "Nominatim", outcome := GeocoderPy.ProvOutcome.raised "HTTP 401 Unauthorized" },
         { name := "Photon", outcome := GeocoderPy.ProvOutcome.found (Except.ok []) }]).geocoder
      = some "Photon" := ⟨rfl, rfl⟩

/-- C3 (amended): in the CLI chain (address_geocoder.py) an authentication
failure after any prefix of no-match providers returns immediately with a
non-empty error and no location, and the providers after it are never
inspected: the result does not depend on what follows the failing
provider.  The attempt label reflects the double increment applied on each
preceding no-match. -/
theorem c3_amended (pre rest : List AddressGeocoderPy.ProvOutcome2) (m : String)
    (hpre : ∀ q ∈ pre, q = AddressGeocoderPy.ProvOutcome2.notFound) :
    AddressGeocoderPy.geocode_address
        (pre ++ AddressGeocoderPy.ProvOutcome2.authFail m :: rest)
      = some (attemptLabel (1 + 2 * pre.length)
                (pre ++ AddressGeocoderPy.ProvOutcome2.authFail m :: rest).length,
              some ("Authentication failed : " ++ m), none)
    ∧ ("Authentication failed : " ++ m) ≠ "" := by
  constructor
  · unfold AddressGeocoderPy.geocode_address
    rw [AddressGeocoderPy.geocodeChain2Aux_skipNotFound _ pre 1 _ hpre]
    rfl
  · intro hcon
    have hlen := congrArg String.length hcon
    rw [String.length_append] at hlen
    have h23 : 0 < ("Authentication failed : ").length := by decide
    simp at hlen
    omega

/-- C3 (witness): the amended statement at a concrete chain of one
no-match provider, then the authentication failure, then one further
provider that would match. -/
theorem c3_amended_witness :
    AddressGeocoderPy.geocode_address
        [AddressGeocoderPy.ProvOutcome2.notFound,
         AddressGeocoderPy.ProvOutcome2.authFail "bad key",
         AddressGeocoderPy.ProvOutcome2.found (Except.ok [])]
      = some (attemptLabel 3 3, some ("Authentication failed : " ++ "bad key"), none)
    ∧ ("Authentication failed : " ++ "bad key") ≠ "" :=
  c3_amended [AddressGeocoderPy.ProvOutcome2.notFound]
    [AddressGeocoderPy.ProvOutcome2.found (Except.ok [])] "bad key"
    (by intro q hq; fin_cases hq; rfl)

/-- C10: in the API chain (geocoder.py) a provider exception does not stop
iteration, and an exhausted chain returns the failed N/N record whose
error is the most recent exception message recorded along the chain (none
when no provider raised); appending a matching provider after any such
block still produces its success outcome. -/
theorem c10_exhausted_chain (ps : List GeocoderPy.Provider)
    (h : ∀ p ∈ ps, ∀ f, p.outcome ≠ GeocoderPy.ProvOutcome.found (Except.ok f)) :
    GeocoderPy.geocode_address ps
      = { attempt := attemptLabel ps.length ps.length, status := "failed",
          error := GeocoderPy.lastErrFrom none ps, location := none, geocoder := none }
    ∧ ∀ (q : GeocoderPy.Provider) (f : List (String × PyAny)),
        q.outcome = GeocoderPy.ProvOutcome.found (Except.ok f) →
        GeocoderPy.geocode_address (ps ++ [q])
          = { attempt := attemptLabel (ps.length + 1) (ps ++ [q]).length,
              status := "success", error := none, location := some f,
              geocoder := some q.name } := by
  constructor
  · unfold GeocoderPy.geocode_address
    have h3 := GeocoderPy.geocodeChainAux_skip ps.length ps 1 none [] h
    rw [List.append_nil] at h3
    rw [h3]
    rfl
  · intro q f hq
    unfold GeocoderPy.geocode_address
    rw [GeocoderPy.geocodeChainAux_skip (ps ++ [q]).length ps 1 none [q] h]
    obtain ⟨qname, qout⟩ := q
    simp only at hq
    subst hq
    simp only [GeocoderPy.geocodeChainAux]
    rw [Nat.add_comm 1 ps.length]

/-- C10 (witness): the statement at a concrete chain in which the first
provider raises, the second reports no match, and the appended provider
matches. -/
theorem c10_exhausted_chain_witness :
    GeocoderPy.geocode_address
        [{ name := "Nominatim", outcome := GeocoderPy.ProvOutcome.raised "boom" },
         { name := "Photon", outcome := GeocoderPy.ProvOutcome.notFound }]
      = { attempt := attemptLabel 2 2, status := "failed",
          error := GeocoderPy.lastErrFrom none
            [{ name := "Nominatim", outcome := GeocoderPy.ProvOutcome.raised "boom" },
             { name := "Photon", outcome := GeocoderPy.ProvOutcome.notFound }],
          location := none, geocoder := none }
    ∧ GeocoderPy.geocode_address
        ([{ name := "Nominatim", outcome := GeocoderPy.ProvOutcome.raised "boom" },
          { name := "Photon", outcome := GeocoderPy.ProvOutcome.notFound }]
          ++ [{ name := "OpenCage", outcome := GeocoderPy.ProvOutcome.found (Except.ok []) }])
      = { attempt := attemptLabel 3 3, status := "success", error := none,
          location := some [],
          geocoder := some "OpenCage" } :=
  have h := c10_exhausted_chain
    [{ name := "Nominatim", outcome := GeocoderPy.ProvOutcome.raised "boom" },
     { name := "Photon", outcome := GeocoderPy.ProvOutcome.notFound }]
    (by intro p hp; fin_cases hp <;> intro f hcon <;> cases hcon)
  ⟨h.1, h.2 { name := "OpenCage", outcome := GeocoderPy.ProvOutcome.found (Except.ok []) } [] rfl⟩

/-- C6: counterexample.  A one-provider chain reporting no match yields a
failed outcome with neither a location nor an error, so the claimed
exactly-one-of invariant fails: an exhausted no-match chain carries no
error message at all. -/
theorem c6_counterexample :
    ¬ c6ExactlyOne (GeocoderPy.geocode_address
        [{ name := "Nominatim", outcome := GeocoderPy.ProvOutcome.notFound }]) := by
  unfold c6ExactlyOne
  decide

/-- C6 (amended): at most one of the two sides holds: a present location
forces a success status with no error, a failed status forces an absent
location, and the fields mapping built by apply_format is never partial:
its keys are always the full output column set plus raw_address and
encoder. -/
theorem c6_amended (ps : List GeocoderPy.Provider) :
    ((GeocoderPy.geocode_address ps).location.isSome
        → (GeocoderPy.geocode_address ps).status = "success"
          ∧ (GeocoderPy.geocode_address ps).error = none)
    ∧ ((GeocoderPy.geocode_address ps).status = "failed"
        → (GeocoderPy.geocode_address ps).location = none)
    ∧ (∀ (g a : String) (kw : List (String × PyAny)),
        (AddressGeocodingConfig.apply_format g a kw).map Prod.fst
          = AddressGeocodingConfig.outputColumns ++ ["raw_address", "encoder"]) := by
  have hinv := GeocoderPy.geocodeChainAux_inv ps.length ps 1 none
  unfold GeocoderPy.geocode_address
  refine ⟨?_, hinv.2.1, ?_⟩
  · intro hloc
    rcases hinv.2.2 with hs | hf
    · exact ⟨hs, (hinv.1 hs).1⟩
    · exfalso
      rw [hinv.2.1 hf] at hloc
      simp at hloc
  · intro g a kw
    rfl

/-- C6 (witness): the amended statement at a one-provider matching chain
and a concrete apply_format call. -/
theorem c6_amended_witness :
    ((GeocoderPy.geocode_address
          [{ name := "Photon", outcome := GeocoderPy.ProvOutcome.found (Except.ok []) }]).status
        = "success"
      ∧ (GeocoderPy.geocode_address
          [{ name := "Photon", outcome := GeocoderPy.ProvOutcome.found (Except.ok []) }]).error
        = none)
    ∧ (AddressGeocodingConfig.apply_format "Photon" "10 Rue de Paris" []).map Prod.fst
        = AddressGeocodingConfig.outputColumns ++ ["raw_address", "encoder"] :=
  ⟨(c6_amended
      [{ name := "Photon", outcome := GeocoderPy.ProvOutcome.found (Except.ok []) }]).1 rfl,
   (c6_amended
      [{ name := "Photon", outcome := GeocoderPy.ProvOutcome.found (Except.ok []) }]).2.2
      "Photon" "10 Rue de Paris" []⟩

/-- C5: counterexample.  A run whose single input (id a) exhausts its
retries flushes one chunk containing only the bare empty dict, which
carries no id: the multiset of ids over the flushed rows is empty rather
than the input id set. -/
theorem c5_counterexample :
    (OrchestratorPy.flushedChunks 1
        [Except.ok (OrchestratorPy.perform_geocoding 3 (fun _ => none)).1]).flatten.filterMap
        OrchestratorPy.rowId
      ≠ ["a"] := by decide

/-- C5 (amended): for chunksize k positive and any completion-order list
of rows, exactly ceiling of m over k chunks are flushed (the empty marker
still occupies a buffer slot), the flushed rows are exactly the
completed rows, and hence the flushed ids are a permutation of the input
ids whenever the completed rows carry them (which fails only for
retry-exhausted empty markers). -/
theorem c5_amended (k : Nat) (hk : 0 < k) (rows : List OrchestratorPy.Row)
    (inputIds : List String)
    (hids : List.Perm (rows.filterMap OrchestratorPy.rowId) inputIds) :
    (OrchestratorPy.flushedChunks k (rows.map Except.ok)).length = (rows.length + k - 1) / k
    ∧ (OrchestratorPy.flushedChunks k (rows.map Except.ok)).flatten = rows
    ∧ List.Perm
        ((OrchestratorPy.flushedChunks k (rows.map Except.ok)).flatten.filterMap
          OrchestratorPy.rowId)
        inputIds := by
  obtain ⟨C, B, h1, h2, h3, h4⟩ := OrchestratorPy.workflowLoop_ok_spec k hk rows [] [] 0 hk
  simp only [List.nil_append] at h2
  simp only [List.length_nil, Nat.zero_add] at h3 h4
  have hfl : OrchestratorPy.flushedChunks k (rows.map Except.ok)
      = if B = [] then C else C ++ [B] := by
    unfold OrchestratorPy.flushedChunks
    rw [h1]
    simp
  have hflat : (OrchestratorPy.flushedChunks k (rows.map Except.ok)).flatten = rows := by
    rw [hfl]
    by_cases hB : B = []
    · rw [if_pos hB]
      rw [hB, List.append_nil] at h2
      exact h2
    · rw [if_neg hB]
      rw [List.flatten_append]
      simpa using h2
  refine ⟨?_, hflat, ?_⟩
  · rw [hfl]
    by_cases hB : B = []
    · rw [if_pos hB]
      have hm : rows.length % k = 0 := by
        rw [hB] at h4
        simpa using h4.symm
      rw [← OrchestratorPy.flushed_count rows.length k hk, hm, h3]
      simp
    · rw [if_neg hB]
      have hm : rows.length % k ≠ 0 := by
        intro h0
        rw [h0] at h4
        exact hB (List.length_eq_zero.mp h4)
      rw [← OrchestratorPy.flushed_count rows.length k hk, if_neg hm]
      simp [h3]
  · rw [hflat]
    exact hids

/-- C5 (witness): the amended statement at chunksize 2 and three concrete
completed rows. -/
theorem c5_amended_witness :
    (OrchestratorPy.flushedChunks 2
        ([OrchestratorPy.Row.failedRow "a", OrchestratorPy.Row.successRow "b" [],
          OrchestratorPy.Row.failedRow "c"].map Except.ok)).length = (3 + 2 - 1) / 2
    ∧ (OrchestratorPy.flushedChunks 2
        ([OrchestratorPy.Row.failedRow "a", OrchestratorPy.Row.successRow "b" [],
          OrchestratorPy.Row.failedRow "c"].map Except.ok)).flatten
      = [OrchestratorPy.Row.failedRow "a", OrchestratorPy.Row.successRow "b" [],
         OrchestratorPy.Row.failedRow "c"]
    ∧ List.Perm
        ((OrchestratorPy.flushedChunks 2
          ([OrchestratorPy.Row.failedRow "a", OrchestratorPy.Row.successRow "b" [],
            OrchestratorPy.Row.failedRow "c"].map Except.ok)).flatten.filterMap
          OrchestratorPy.rowId)
        ["a", "b", "c"] :=
  c5_amended 2 (by decide)
    [OrchestratorPy.Row.failedRow "a", OrchestratorPy.Row.successRow "b" [],
     OrchestratorPy.Row.failedRow "c"]
    ["a", "b", "c"] (by decide)

/-- C4: evaluation of the code at the failing input.  In the CLI revision
an address for which every provider reports no match makes the chain
return None; unpacking None raises, so the retry loop runs the chain
max_retry_no 3 times before returning the empty marker — the exhausted
no-match chain is retried, contradicting the claim.  In the API revision
the same situation yields the failed row on the first attempt with no
retry. -/
theorem c4_code_evaluation :
    AddressGeocoderPy.geocode_address
        [AddressGeocoderPy.ProvOutcome2.notFound, AddressGeocoderPy.ProvOutcome2.notFound,
         AddressGeocoderPy.ProvOutcome2.notFound] = none
    ∧ OrchestratorPy.perform_geocoding 3
        (fun _ => GeocodingOrchestratorPy.geocode_input_row "a"
          [AddressGeocoderPy.ProvOutcome2.notFound, AddressGeocoderPy.ProvOutcome2.notFound,
           AddressGeocoderPy.ProvOutcome2.notFound])
      = (OrchestratorPy.Row.empty, 3)
    ∧ OrchestratorPy.perform_geocoding 3
        (fun _ => OrchestratorPy.geocode_input_row "a"
          [{ name := "Nominatim", outcome := GeocoderPy.ProvOutcome.notFound },
           { name := "Photon", outcome := GeocoderPy.ProvOutcome.notFound },
           { name := "OpenCage", outcome := GeocoderPy.ProvOutcome.notFound }])
      = (OrchestratorPy.Row.failedRow "a", 1) := ⟨rfl, rfl, rfl⟩

/-- C9: evaluation of the code at the failing input.  geocode_address
constructs a fresh RateLimiter inside the provider loop on every
resolution, so each provider request is issued through the initial limiter
state and goes out immediately: two requests to the same provider at
times 0 and one half are separated by one half, below the default
minimum delay of 1.  A limiter whose state remembered the first request
would defer the second to time 1. -/
theorem c9_code_evaluation :
    RateLimiterModel.code_request_time 1 0 = 0
    ∧ RateLimiterModel.code_request_time 1 (1 / 2) = 1 / 2
    ∧ ((1 / 2 : ℚ) - 0 < 1)
    ∧ (RateLimiterModel.rateLimiterIssue { lastIssued := some 0 } 1 (1 / 2)).1 = 1 := by
  refine ⟨rfl, rfl, by norm_num, ?_⟩
  simp [RateLimiterModel.rateLimiterIssue]
  norm_num

/-- C8: counterexample.  A Nominatim payload whose lat value is the
non-numeric string abc makes the normalization raise a wrapped RuntimeError
instead of producing latitude 0.0; in the chain that formatting failure is
recorded and the address resolution ends Unresolved, not with coordinates
0.0. -/
theorem c8_counterexample :
    AddressGeocodingConfig.get_nominatim_format_config
        { address := [], raw := [("lat", PyAny.pStr "abc")] }
      = Except.error
          (AddressGeocodingConfig.nominatimErr ("could not convert string to float: " ++ "abc"))
    ∧ GeocoderPy.geocode_address
        [{ name := "Nominatim", outcome := GeocoderPy.ProvOutcome.found (Except.error "boom") }]
      = { attempt := attemptLabel 1 1, status := "failed", error := some "boom",
          location := none, geocoder := none } := ⟨rfl, rfl⟩

/-- C8 (amended): latitude and longitude are always emitted as floats by
the Nominatim normalization, an absent lat or lon key becomes 0.0, and at
the chunk level a non-numeric latitude cell is coerced to 0 without
raising; a non-numeric present value, however, raises during
normalization. -/
theorem c8_amended (addr raw : List (String × PyAny))
    (hlat : raw.find? (fun kv => kv.1 == "lat") = none)
    (hlon : raw.find? (fun kv => kv.1 == "lon") = none) (s rid : String) :
    (∃ cfg,
        AddressGeocodingConfig.get_nominatim_format_config { address := addr, raw := raw }
          = Except.ok cfg
        ∧ dictGet cfg "latitude" PyAny.pNone = PyAny.pNum 0
        ∧ dictGet cfg "longitude" PyAny.pNone = PyAny.pNum 0)
    ∧ (∀ (loc : AddressGeocodingConfig.NominatimLocation) (cfg : List (String × PyAny)),
        AddressGeocodingConfig.get_nominatim_format_config loc = Except.ok cfg
        → (∃ la, dictGet cfg "latitude" PyAny.pNone = PyAny.pNum la)
          ∧ (∃ lo, dictGet cfg "longitude" PyAny.pNone = PyAny.pNum lo))
    ∧ Helpers.convert_to_numeric_row ["latitude", "longitude"]
        [("id", PyAny.pStr rid), ("latitude", PyAny.pStr s)]
      = [("id", PyAny.pStr rid), ("latitude", PyAny.pNum 0)] := by
  refine ⟨?_, ?_, ?_⟩
  · refine
      ⟨(AddressGeocodingConfig.defaultSchema.map
          (fun kv => (kv.1, dictGet addr kv.2 (PyAny.pStr "")))) ++
        [("latitude", PyAny.pNum 0), ("longitude", PyAny.pNum 0),
         ("location_type", dictGet raw "type" PyAny.pNone),
         ("address_type", dictGet raw "addresstype" PyAny.pNone)], ?_, ?_, ?_⟩
    · unfold AddressGeocodingConfig.get_nominatim_format_config
      simp only [dictGet, hlat, hlon]
      rfl
    · simp [dictGet, AddressGeocodingConfig.defaultSchema, List.find?]
    · simp [dictGet, AddressGeocodingConfig.defaultSchema, List.find?]
  · intro loc cfg h
    unfold AddressGeocodingConfig.get_nominatim_format_config at h
    cases hla : pyFloat (dictGet loc.raw "lat" (PyAny.pNum 0)) with
    | error m => rw [hla] at h; simp at h
    | ok la =>
      cases hlo2 : pyFloat (dictGet loc.raw "lon" (PyAny.pNum 0)) with
      | error m => rw [hla, hlo2] at h; simp at h
      | ok lo =>
        rw [hla, hlo2] at h
        simp only [Except.ok.injEq] at h
        subst h
        constructor
        · exact ⟨la, by simp [dictGet, AddressGeocodingConfig.defaultSchema, List.find?]⟩
        · exact ⟨lo, by simp [dictGet, AddressGeocodingConfig.defaultSchema, List.find?]⟩
  · simp [Helpers.convert_to_numeric_row, Helpers.to_numeric_cell]

/-- C8 (witness): the amended statement at a concrete payload whose raw
dict carries no lat or lon key. -/
theorem c8_amended_witness :
    ([("type", PyAny.pStr "house")] : List (String × PyAny)).find?
        (fun kv => kv.1 == "lat") = none
    ∧ ((∃ cfg,
          AddressGeocodingConfig.get_nominatim_format_config
              { address := [], raw := [("type", PyAny.pStr "house")] }
            = Except.ok cfg
          ∧ dictGet cfg "latitude" PyAny.pNone = PyAny.pNum 0
          ∧ dictGet cfg "longitude" PyAny.pNone = PyAny.pNum 0)
      ∧ (∀ (loc : AddressGeocodingConfig.NominatimLocation) (cfg : List (String × PyAny)),
          AddressGeocodingConfig.get_nominatim_format_config loc = Except.ok cfg
          → (∃ la, dictGet cfg "latitude" PyAny.pNone = PyAny.pNum la)
            ∧ (∃ lo, dictGet cfg "longitude" PyAny.pNone = PyAny.pNum lo))
      ∧ Helpers.convert_to_numeric_row ["latitude", "longitude"]
          [("id", PyAny.pStr "7"), ("latitude", PyAny.pStr "abc")]
        = [("id", PyAny.pStr "7"), ("latitude", PyAny.pNum 0)]) :=
  ⟨rfl, c8_amended [] [("type", PyAny.pStr "house")] rfl rfl "abc" "7"⟩
